import Mathlib

/-!
Verification of the OT (Operational Transformation) engine of the
sharedb-tutorial repository: a shallow embedding, in Lean, of

* the simple-text reference type (`src/types/text.ts`),
* the counter reference type (`src/core/types.ts`),
* the document-level OT kernel `checkOp` / `apply` / `transform`
  (`src/core/ot.ts`),
* the client replica rollback path (`Doc._handleOp` / `Doc._hardRollback`),
* the server commit loop `submitOp` and the in-memory store
  (`submit-request` / `memory-db`),

together with theorems settling the specification claims about them.

Modelling conventions: JavaScript numbers that are used as versions or
sequence numbers are modelled as `Nat`; text positions/counts (which the code
manipulates with subtraction) as `Int`; the numeric payload of the counter
type as `ℚ` (an exact superset of the float values the repository ever
produces); fallible code returns `Except`; in-place mutation is modelled by
returning the updated value.
-/

namespace ShareDBTut

/-! ## Simple text type (`src/types/text.ts`) -/

/-- Tie-breaking side passed to a type's transform function. -/
inductive Side where
  | left
  | right
deriving DecidableEq, Repr

/-- A text operation: `{type:'insert', pos, text}` or `{type:'delete', pos, count}`
(`TextOp` in `src/types/text.ts`). `pos`/`count` are JS numbers; the repository
only ever produces integers, so they are modelled as `Int`. -/
inductive TextOp where
  | insert (pos : Int) (text : String)
  | delete (pos : Int) (count : Int)
deriving DecidableEq, Repr

/-- Clamp one index argument of `String.prototype.slice` (ECMAScript
`% 22.1.3.21`): a negative index counts from the end (floored at 0), a
non-negative one is capped at the length. -/
def jsSliceIdx (len : Nat) (i : Int) : Nat :=
  if i < 0 then ((len : Int) + i).toNat else min i.toNat len

/-- JavaScript `s.slice(start)` / `s.slice(start, stop)` on strings. -/
def jsSlice (s : String) (start : Int) (stop : Option Int) : String :=
  let len := s.length
  let f := jsSliceIdx len start
  let t := match stop with
    | none => len
    | some e => jsSliceIdx len e
  ((s.toList.drop f).take (t - f)).asString

/-- `textType.apply` (`src/types/text.ts:90-102`): splice an insert or delete
into the snapshot string.  Insert: `slice(0,pos) + text + slice(pos)`;
delete: `slice(0,pos) + slice(pos+count)`. -/
def textApply (snapshot : String) (op : TextOp) : String :=
  match op with
  | .insert pos text => jsSlice snapshot 0 (some pos) ++ text ++ jsSlice snapshot pos none
  | .delete pos count => jsSlice snapshot 0 (some pos) ++ jsSlice snapshot (pos + count) none

/-- `textType.transform` (`src/types/text.ts:124-195`): transform `op1`
against an already-applied `op2`, with `side` breaking position ties for
inserts.  The structure mirrors the source branch for branch. -/
def textTransform (op1 op2 : TextOp) (side : Side) : TextOp :=
  match op2 with
  | .insert p2 t2 =>
    -- op2 is an insert: shift our position right when it inserted before us
    -- (or at our position with side = 'right')
    let insertedLength : Int := t2.length
    match op1 with
    | .insert p1 t1 =>
      if p2 < p1 ∨ (p2 = p1 ∧ side = .right) then .insert (p1 + insertedLength) t1
      else .insert p1 t1
    | .delete p1 c1 =>
      if p2 < p1 ∨ (p2 = p1 ∧ side = .right) then .delete (p1 + insertedLength) c1
      else .delete p1 c1
  | .delete p2 c2 =>
    let deleteStart := p2
    let deleteEnd := p2 + c2
    match op1 with
    | .insert p1 t1 =>
      if deleteEnd ≤ p1 then .insert (p1 - c2) t1
      else if deleteStart < p1 then .insert deleteStart t1
      else .insert p1 t1
    | .delete p1 c1 =>
      let ourStart := p1
      let ourEnd := p1 + c1
      if deleteEnd ≤ ourStart then .delete (p1 - c2) c1
      else if deleteStart ≥ ourEnd then .delete p1 c1
      else if deleteStart ≤ ourStart then
        if deleteEnd ≥ ourEnd then .delete deleteStart 0
        else .delete deleteStart (c1 - (deleteEnd - ourStart))
      else
        if deleteEnd ≥ ourEnd then .delete p1 (c1 - (ourEnd - deleteStart))
        else .delete p1 (c1 - c2)

/-- `textType.invert` (`src/types/text.ts:204-222`). -/
def textInvert (op : TextOp) : TextOp :=
  match op with
  | .insert pos text => .delete pos text.length
  | .delete pos count => .insert pos (String.mk (List.replicate count.toNat '?'))

/-- `textType.create` (`src/types/text.ts:72-77`): a string is kept, anything
else yields the empty string; here specialised to the string-or-absent inputs
the claims range over. -/
def textCreate (data : Option String) : String :=
  match data with
  | some s => s
  | none => ""

example : textApply "hello" (.insert 1 "X") = "hXello" := by decide
example : textApply "hello" (.delete 1 2) = "hlo" := by decide

/-! ## Counter type (`src/core/types.ts:203-293`) -/

/-- Truncation toward zero of a rational, as ECMAScript applies to a number
before 32-bit wrapping.  `Int.tdiv` is T-division, so on the reduced
`num/den` representation it is exactly truncation toward zero. -/
def jsTrunc (q : ℚ) : Int :=
  q.num.tdiv q.den

/-- ECMAScript `ToInt32`: truncate toward zero, then wrap into
`[-2^31, 2^31)` modulo `2^32`.  `x | 0` on a number equals `ToInt32(x)`. -/
def jsToInt32 (q : ℚ) : Int :=
  ((jsTrunc q + 2 ^ 31).emod (2 ^ 32)) - 2 ^ 31

/-- `counterType.create` (`src/core/types.ts:218-221`): `(data as number) | 0`.
With `data` absent (`undefined`), `undefined | 0 = 0`.  The claims only range
over numeric or absent inputs, modelled as `Option ℚ`. -/
def counterCreate (data : Option ℚ) : Int :=
  match data with
  | some q => jsToInt32 q
  | none => 0

/-- `counterType.apply` (`src/core/types.ts:234-236`): `snapshot + op`. -/
def counterApply (snapshot : ℚ) (op : ℚ) : ℚ :=
  snapshot + op

/-- `counterType.transform` (`src/core/types.ts:260-263`): addition commutes,
so the operation is returned unchanged. -/
def counterTransform (op1 _op2 : ℚ) (_side : Side) : ℚ :=
  op1

/-- `counterType.compose` (`src/core/types.ts:276-278`). -/
def counterCompose (op1 op2 : ℚ) : ℚ :=
  op1 + op2

/-- `counterType.invert` (`src/core/types.ts:290-292`). -/
def counterInvert (op : ℚ) : ℚ :=
  -op

example : counterCreate none = 0 := by decide
example : counterCreate (some 10) = 10 := by decide

/-! ## Type registry (`src/core/types.ts:121-167`)

The repository registers exactly the counter type and the simple-text type,
each under both its short name and its URI. -/

/-- The two registered OT types. -/
inductive TypeId where
  | counter
  | simpleText
deriving DecidableEq, Repr

/-- The type's short name (`type.name`). -/
def typeName : TypeId → String
  | .counter => "counter"
  | .simpleText => "simple-text"

/-- The type's URI (`type.uri`). -/
def typeUri : TypeId → String
  | .counter => "http://sharejs.org/types/counter"
  | .simpleText => "http://sharejs.org/types/simple-text"

/-- `types.get(nameOrUri)` (`src/core/types.ts:151-153`): each registered type
resolves under both its name and its URI. -/
def typesGet (nameOrUri : String) : Option TypeId :=
  if nameOrUri = typeName .counter ∨ nameOrUri = typeUri .counter then some .counter
  else if nameOrUri = typeName .simpleText ∨ nameOrUri = typeUri .simpleText then some .simpleText
  else none

/-- `types.has(nameOrUri)` (`src/core/types.ts:161-163`). -/
def typesHas (nameOrUri : String) : Bool :=
  (typesGet nameOrUri).isSome

/-! ## Kernel data model (`src/core/ot.ts`, `src/core/snapshot.ts`) -/

/-- Payload of a create operation's optional `data` field: the repository only
ever passes a number (counter) or a string (text). -/
inductive JData where
  | num (q : ℚ)
  | str (s : String)
deriving DecidableEq, Repr

/-- Type-specific document data (`snapshot.data` when the document exists). -/
inductive DocData where
  | counter (q : ℚ)
  | text (s : String)
deriving DecidableEq, Repr

/-- Payload of an edit operation (`op.op`): a number for the counter type, a
`TextOp` for the simple-text type. -/
inductive EditPayload where
  | counterDelta (q : ℚ)
  | textOp (t : TextOp)
deriving DecidableEq, Repr

/-- Error codes of `OTError` (`src/core/error.ts` / `ERROR_CODES`), plus
`jsTypeError` modelling a raw JavaScript `TypeError` thrown when a type
implementation receives a payload of the wrong shape (not an `OTError`). -/
inductive Err where
  | ERR_APPLY_OP_VERSION_DOES_NOT_MATCH_SNAPSHOT
  | ERR_APPLY_SNAPSHOT_NOT_PROVIDED
  | ERR_DOC_ALREADY_CREATED
  | ERR_DOC_DOES_NOT_EXIST
  | ERR_DOC_TYPE_NOT_RECOGNIZED
  | ERR_DOC_WAS_DELETED
  | ERR_OT_OP_BADLY_FORMED
  | ERR_OT_OP_NOT_APPLIED
  | ERR_OT_OP_NOT_PROVIDED
  | ERR_OP_VERSION_MISMATCH_DURING_TRANSFORM
  | ERR_OP_ALREADY_SUBMITTED
  | ERR_SUBMIT_TRANSFORM_OPS_NOT_FOUND
  | ERR_MAX_SUBMIT_RETRIES_EXCEEDED
  | jsTypeError
deriving DecidableEq, Repr

/-- A document snapshot (`Snapshot` in `src/core/snapshot.ts`): `type` is the
registered name/URI or null, `data` is the payload (absent iff `undefined`).
The optional metadata `m` carries only wall-clock timestamps and is not
modelled. -/
structure Snapshot where
  id : String
  v : Nat
  type : Option String
  data : Option DocData
deriving DecidableEq, Repr

/-- `createEmptySnapshot(id)` (`src/core/snapshot.ts`): a never-created
document. -/
def createEmptySnapshot (id : String) : Snapshot :=
  { id := id, v := 0, type := none, data := none }

/-- The `create` field of a create operation. -/
structure CreateField where
  type : String
  data : Option JData
deriving DecidableEq, Repr

/-- A document-level operation (`Op` in `src/core/ot.ts`), with all the fields
the kernel inspects.  `create := none` covers an absent or null field (both
make `isCreateOp` false); `del` is true exactly when the field is present with
the literal `true`; `op := some none` models a present `op` key holding
`undefined`; `op := none` models an absent key. -/
structure Op where
  create : Option CreateField := none
  del : Bool := false
  op : Option (Option EditPayload) := none
  v : Option Nat := none
  src : Option String := none
  seq : Option Nat := none
deriving DecidableEq, Repr

/-- `isCreateOp` (`src/core/ot.ts:59-61`). -/
def isCreateOpB (o : Op) : Bool :=
  o.create.isSome

/-- `isEditOp` (`src/core/ot.ts:64-66`): `'op' in op`, presence only. -/
def isEditOpB (o : Op) : Bool :=
  o.op.isSome

/-- `isDeleteOp` (`src/core/ot.ts:69-71`). -/
def isDeleteOpB (o : Op) : Bool :=
  o.del

/-- JavaScript truthiness of `snapshot.type : string | null`: a present,
non-empty string. -/
def strTruthy : Option String → Bool
  | none => false
  | some s => s ≠ ""

/-! ## Type dispatch used by the kernel -/

/-- Dispatch of `type.create(op.create.data)` in the kernel's create branch.
Counter: `(data as number) | 0`; a string argument would first coerce through
`ToNumber`, which is outside the modelled numeric-or-string domain and is
rendered as `NaN` (hence 0) — the repository never creates a counter from a
string.  Text: `typeof data === 'string' ? data : ''`. -/
def typeCreate : TypeId → Option JData → DocData
  | .counter, some (.num q) => .counter (counterCreate (some q))
  | .counter, some (.str _) => .counter 0
  | .counter, none => .counter (counterCreate none)
  | .simpleText, some (.str s) => .text (textCreate (some s))
  | .simpleText, some (.num _) => .text (textCreate none)
  | .simpleText, none => .text (textCreate none)

/-- Dispatch of `type.apply(snapshot.data, op.op)` in the kernel's edit
branch.  A payload or datum of the wrong shape for the type (unreachable
through well-typed documents) is modelled as a thrown `TypeError`. -/
def typeApplyD : TypeId → Option DocData → EditPayload → Except Err DocData
  | .counter, some (.counter q), .counterDelta d => .ok (.counter (counterApply q d))
  | .simpleText, some (.text s), .textOp t => .ok (.text (textApply s t))
  | _, _, _ => .error .jsTypeError

/-- Dispatch of `type.transform(op.op, appliedOp.op, side)` in the kernel's
edit-vs-edit branch.  The counter transform returns its first argument
unchanged whatever it is (`src/core/types.ts:260-263`), including an
`undefined` payload; the text transform requires two text operations, and any
other shape (unreachable through well-typed documents) is modelled as a
thrown `TypeError`. -/
def typeTransformD : TypeId → Option EditPayload → Option EditPayload → Side →
    Except Err (Option EditPayload)
  | .counter, p1, _, _ => .ok p1
  | .simpleText, some (.textOp t1), some (.textOp t2), side =>
      .ok (some (.textOp (textTransform t1 t2 side)))
  | .simpleText, _, _, _ => .error .jsTypeError

/-! ## Kernel `apply` (`src/core/ot.ts:150-212`) -/

/-- The kernel `apply(snapshot, op)`: handles create, delete, edit and the
structural no-op shape, checking versions first; in-place mutation of the
snapshot is modelled by returning the updated snapshot.  The
never-null-snapshot guard of the source is vacuous in the typed model. -/
def applyK (snapshot : Snapshot) (o : Op) : Except Err Snapshot :=
  -- version check: if both have versions, they must match
  if (match o.v with
      | some ov => snapshot.v != ov
      | none => false) then
    .error .ERR_APPLY_OP_VERSION_DOES_NOT_MATCH_SNAPSHOT
  else
    match o.create with
    | some c =>
      -- CREATE
      if strTruthy snapshot.type then .error .ERR_DOC_ALREADY_CREATED
      else
        match typesGet c.type with
        | none => .error .ERR_DOC_TYPE_NOT_RECOGNIZED
        | some t =>
          .ok { snapshot with
                  data := some (typeCreate t c.data)
                  type := some (typeUri t)
                  v := snapshot.v + 1 }
    | none =>
      if o.del then
        -- DELETE
        .ok { snapshot with data := none, type := none, v := snapshot.v + 1 }
      else
        match o.op with
        | some pOpt =>
          -- EDIT
          if ¬ strTruthy snapshot.type then .error .ERR_DOC_DOES_NOT_EXIST
          else
            match pOpt with
            | none => .error .ERR_OT_OP_NOT_PROVIDED
            | some p =>
              match typesGet (snapshot.type.getD "") with
              | none => .error .ERR_DOC_TYPE_NOT_RECOGNIZED
              | some t =>
                match typeApplyD t snapshot.data p with
                | .error e => .error e
                | .ok d => .ok { snapshot with data := some d, v := snapshot.v + 1 }
        | none =>
          -- structural no-op: just increment the version
          .ok { snapshot with v := snapshot.v + 1 }

/-! ## Kernel `transform` (`src/core/ot.ts:241-296`) -/

/-- The case dispatch of the kernel `transform` (`src/core/ot.ts:254-290`):
errors for the impossible combinations, real OT for edit-vs-edit, and the
untouched op otherwise. -/
def transformKBody (ty : Option String) (o appliedOp : Op) : Except Err Op :=
  if isDeleteOpB appliedOp then
    -- appliedOp is delete
    if isCreateOpB o || isEditOpB o then .error .ERR_DOC_WAS_DELETED
    else .ok o
  else if isCreateOpB appliedOp && (isEditOpB o || isCreateOpB o || isDeleteOpB o) then
    .error .ERR_DOC_ALREADY_CREATED
  else if isEditOpB appliedOp && isCreateOpB o then
    .error .ERR_DOC_ALREADY_CREATED
  else if isEditOpB appliedOp && isEditOpB o then
    -- both are edits: the real OT, with 'left' priority hard-coded
    if ¬ strTruthy ty then .error .ERR_DOC_DOES_NOT_EXIST
    else
      match typesGet (ty.getD "") with
      | none => .error .ERR_DOC_TYPE_NOT_RECOGNIZED
      | some t =>
        match typeTransformD t (o.op.getD none) (appliedOp.op.getD none) .left with
        | .error e => .error e
        | .ok p => .ok { o with op := some p }
  else .ok o

/-- The kernel `transform(type, op, appliedOp)` (`src/core/ot.ts:241-296`):
version precondition, case dispatch, then the version increment of lines
293-295.  The `type` parameter is the string-or-null `snapshot.type` the
server passes (the instance-typed overload is never exercised by the
modelled callers).  Mutation of `op` is modelled by returning the updated
operation. -/
def transformK (ty : Option String) (o appliedOp : Op) : Except Err Op :=
  -- version check
  if (match o.v, appliedOp.v with
      | some a, some b => a != b
      | _, _ => false) then
    .error .ERR_OP_VERSION_MISMATCH_DURING_TRANSFORM
  else
    match transformKBody ty o appliedOp with
    | .error e => .error e
    | .ok o1 =>
      -- increment version if present
      .ok { o1 with v := o1.v.map (· + 1) }

example :
    transformK (some "counter") { op := some (some (.counterDelta 3)), v := some 1 }
      { op := some (some (.counterDelta 5)), v := some 1 } =
    .ok { op := some (some (.counterDelta 3)), v := some 2 } := rfl

/-! ## `checkOp` on raw JavaScript values (`src/core/ot.ts:88-129`)

`checkOp` receives an `unknown`; the model captures exactly the distinctions
the function inspects on each field. -/

/-- State of the `create` field as `checkOp` sees it: absent/null/undefined
(branch not taken), present but not an object, or an object whose `type`
field is a string (`obj (some ty)`) or missing/non-string (`obj none`). -/
inductive RawCreateVal where
  | nullish
  | nonObject
  | obj (ty : Option String)
deriving DecidableEq, Repr

/-- State of the `del` field: absent/null/undefined, the literal `true`, or
any other non-null value. -/
inductive RawDelVal where
  | nullish
  | trueV
  | otherNonNull
deriving DecidableEq, Repr

/-- Presence of the `op` key (`'op' in opObj`; the value is not inspected). -/
inductive RawOpKey where
  | absent
  | present
deriving DecidableEq, Repr

/-- State of the `src` field: absent/null/undefined, a string, or another
non-null value. -/
inductive RawSrcVal where
  | nullish
  | str (s : String)
  | otherNonNull
deriving DecidableEq, Repr

/-- State of the `seq` field: absent/null/undefined, a number, or another
non-null value. -/
inductive RawSeqVal where
  | nullish
  | num (n : ℚ)
  | otherNonNull
deriving DecidableEq, Repr

/-- An arbitrary object handed to `checkOp`, as far as `checkOp` looks. -/
structure RawOp where
  create : RawCreateVal
  del : RawDelVal
  op : RawOpKey
  src : RawSrcVal
  seq : RawSeqVal
deriving DecidableEq, Repr

/-- The shape-selection section of `checkOp` (`src/core/ot.ts:96-117`): an
if / else-if chain over `create`, `del`, `op`. -/
def rawShapeCheck (r : RawOp) : Except Err Unit :=
  match r.create with
  | .nonObject => .error .ERR_OT_OP_BADLY_FORMED
  | .obj none => .error .ERR_OT_OP_BADLY_FORMED
  | .obj (some ty) =>
    if ¬ typesHas ty then .error .ERR_DOC_TYPE_NOT_RECOGNIZED else .ok ()
  | .nullish =>
    match r.del with
    | .trueV => .ok ()
    | .otherNonNull => .error .ERR_OT_OP_BADLY_FORMED
    | .nullish =>
      match r.op with
      | .absent => .error .ERR_OT_OP_BADLY_FORMED
      | .present => .ok ()

/-- The `src`/`seq` section of `checkOp` (`src/core/ot.ts:119-128`): types,
then the set-together pairing. -/
def rawSrcSeqCheck (r : RawOp) : Except Err Unit :=
  if r.src = .otherNonNull then .error .ERR_OT_OP_BADLY_FORMED
  else if r.seq = .otherNonNull then .error .ERR_OT_OP_BADLY_FORMED
  else if (r.src = .nullish ∧ r.seq ≠ .nullish) ∨ (r.src ≠ .nullish ∧ r.seq = .nullish) then
    .error .ERR_OT_OP_BADLY_FORMED
  else .ok ()

/-- `checkOp(op)` (`src/core/ot.ts:88-129`); `none` models a null or
non-object argument. -/
def checkOpR (x : Option RawOp) : Except Err Unit :=
  match x with
  | none => .error .ERR_OT_OP_BADLY_FORMED
  | some r =>
    match rawShapeCheck r with
    | .error e => .error e
    | .ok _ => rawSrcSeqCheck r

/-- `checkOp` restricted to the structured operations the server path builds
(always objects; a present `del` is the literal `true`; `src`/`seq` have the
right primitive types by construction, so only registry membership, the
missing-shape check and the `src`/`seq` pairing can fail). -/
def checkOpT (o : Op) : Except Err Unit :=
  let srcSeq : Except Err Unit :=
    if (o.src.isNone && o.seq.isSome) || (o.src.isSome && o.seq.isNone) then
      .error .ERR_OT_OP_BADLY_FORMED
    else .ok ()
  match o.create with
  | some c =>
    if ¬ typesHas c.type then .error .ERR_DOC_TYPE_NOT_RECOGNIZED else srcSeq
  | none =>
    if o.del then srcSeq
    else
      match o.op with
      | some _ => srcSeq
      | none => .error .ERR_OT_OP_BADLY_FORMED

/-! ## Client replica rollback (`src/client/doc.ts`)

Only the state and events the rollback claims concern are modelled: the
replica fields of `Doc`, the callbacks of queued operations (identified by
opaque tokens and reported in invocation order), and the resubscribe
behaviour of `Doc.subscribe`. -/

/-- A queued client operation (`PendingOp` in `src/client/doc.ts:371-382`):
the op fields plus the captured type handle and the caller callbacks. -/
structure PendingOp where
  op : Op
  ty : Option TypeId := none
  callbacks : List Nat := []
deriving DecidableEq, Repr

/-- The replica fields of a client `Doc`
(`version`/`type`/`data`/`subscribed`/`inflightOp`/`pendingOps`). -/
structure DocState where
  version : Option Nat
  ty : Option TypeId
  data : Option DocData
  subscribed : Bool
  inflightOp : Option PendingOp
  pendingOps : List PendingOp
deriving DecidableEq, Repr

/-- Observable effects of a rollback: which callbacks were invoked with the
error (in order), whether `subscribe()` was called, and whether it sent a
subscribe request to the server (it does iff the connection can send). -/
structure RollbackEffects where
  erroredCallbacks : List Nat
  subscribeCalled : Bool
  subscribeSent : Bool
deriving DecidableEq, Repr

/-- `Doc._hardRollback(error)` (`src/client/doc.ts` lines 699-722): drop
`inflightOp` and `pendingOps`, reset `type`/`data`/`version` to the
never-fetched state, invoke every dropped callback with the error, clear
`subscribed` and call `subscribe()` (which sends iff the connection can
send). -/
def hardRollback (canSend : Bool) (st : DocState) : DocState × RollbackEffects :=
  let allOps : List PendingOp :=
    match st.inflightOp with
    | some i => i :: st.pendingOps
    | none => st.pendingOps
  let st1 : DocState :=
    { version := none
      ty := none
      data := none
      subscribed := false
      inflightOp := none
      pendingOps := [] }
  (st1,
   { erroredCallbacks := (allOps.map PendingOp.callbacks).flatten
     subscribeCalled := true
     subscribeSent := canSend })

/-- The error branch of `Doc._handleOp` (`src/client/doc.ts:560-572`): if an
op message carries an error while an operation is in flight, the replica
rolls back hard (`_rollback` delegates to `_hardRollback`); with no inflight
op it only emits the error. -/
def handleOpError (canSend : Bool) (st : DocState) : DocState × RollbackEffects :=
  match st.inflightOp with
  | some _ => hardRollback canSend st
  | none => (st, { erroredCallbacks := [], subscribeCalled := false, subscribeSent := false })

/-! ## Server store (`src/server/memory-db.ts`) -/

/-- A stored operation (`StoredOp`): the op plus collection and document id.
The metadata `m.ts` wall-clock timestamp is not modelled. -/
structure StoredOp extends Op where
  c : String
  d : String
deriving DecidableEq, Repr

/-- The two keyed maps of `MemoryDb`: `(collection, id) → snapshot` and
`(collection, id) → op log`.  An absent key is `none` / the empty log. -/
structure Db where
  snapshots : String × String → Option Snapshot
  ops : String × String → List StoredOp

/-- A `MemoryDb` with no documents. -/
def emptyDb : Db :=
  { snapshots := fun _ => none, ops := fun _ => [] }

/-- `MemoryDb.getSnapshot` (`memory-db` lines 54-64): the stored snapshot (a
defensive clone — a value copy here) or the empty snapshot for a
never-created document. -/
def getSnapshotD (db : Db) (c docId : String) : Snapshot :=
  match db.snapshots (c, docId) with
  | some s => s
  | none => createEmptySnapshot docId

/-- `MemoryDb.getOps` (`memory-db` lines 77-91): the log entries with
`fromV ≤ v` and, when `toV` is given, `v < toV`; an entry with `v` absent
never passes the comparison (JS `undefined >= n` is false). -/
def getOpsD (db : Db) (c docId : String) (fromV : Nat) (toV : Option Nat) : List StoredOp :=
  (db.ops (c, docId)).filter fun h =>
    match h.v with
    | none => false
    | some v =>
      decide (fromV ≤ v) &&
        (match toV with
         | none => true
         | some t => decide (v < t))

/-- `MemoryDb.commit` (`memory-db` lines 108-158): optimistic CAS — succeeds
(returning the updated store) iff `op.v` equals the current stored version
(0 for a never-created document); on success the op is appended to the log
and the snapshot replaced.  `none` is the `false` (version conflict)
return. -/
def commitD (db : Db) (c docId : String) (o : Op) (snapshot : Snapshot) : Option Db :=
  let currentVersion : Nat :=
    match db.snapshots (c, docId) with
    | some s => s.v
    | none => 0
  match o.v with
  | some v =>
    if v = currentVersion then
      some
        { snapshots := fun k => if k = (c, docId) then some snapshot else db.snapshots k
          ops := fun k =>
            if k = (c, docId) then db.ops (c, docId) ++ [{ toOp := o, c := c, d := docId }]
            else db.ops k }
    else none
  | none => none

/-! ## Server commit loop (`src/server/submit-request.ts`) -/

/-- The duplicate-submission test of the rebase loop (`submit-request` line
107): `opCopy.src && opCopy.src === h.src && opCopy.seq === h.seq` (a truthy,
i.e. non-empty, `src`). -/
def dupCollision (o : Op) (h : StoredOp) : Bool :=
  strTruthy o.src && o.src == h.src && o.seq == h.seq

/-- The rebase loop of `submitOp` (`submit-request` lines 104-119): for each
historical op in order, fail on a `(src, seq)` collision, otherwise transform
the op against it and collect it into `transformedOps`. -/
def rebaseLoop (ty : Option String) (o : Op) (hs : List StoredOp) (acc : List StoredOp) :
    Except Err (Op × List StoredOp) :=
  match hs with
  | [] => .ok (o, acc)
  | h :: rest =>
    if dupCollision o h then .error .ERR_OP_ALREADY_SUBMITTED
    else
      match transformK ty o h.toOp with
      | .error e => .error e
      | .ok o1 => rebaseLoop ty o1 rest (acc ++ [h])

/-- `SubmitResult` (`submit-request` lines 33-40). -/
structure SubmitResult where
  op : Op
  snapshot : Snapshot
  ops : List StoredOp

/-- Outcome of one iteration of the `submitOp` `while` loop.  `conflictRetry`
is the `commit === false` branch: it carries the caller's op as the loop
leaves it for the next iteration — with `op.v` reset to `undefined`
(`submit-request` line 148 mutates the caller's op). -/
inductive SubmitAttemptResult where
  | ok (result : SubmitResult) (db : Db)
  | conflictRetry (callerOp : Op)
  | err (e : Err)

/-- One iteration of the `submitOp` loop (`submit-request` lines 72-149).
`dbFetch` is the store as observed at the awaited `getSnapshot`/`getOps`;
`dbCommit` the store at the awaited `commit` — other turns may run between
the two suspension points, which is the only way the CAS can fail. -/
def submitAttempt (dbFetch dbCommit : Db) (c docId : String) (callerOp : Op) :
    SubmitAttemptResult :=
  -- Step 1: fetch current snapshot; clone the op (a value copy here)
  let snapshot := getSnapshotD dbFetch c docId
  -- Step 2: set version if not provided
  let ov : Nat :=
    match callerOp.v with
    | some x => x
    | none => snapshot.v
  let opCopy : Op := { callerOp with v := some ov }
  -- Step 3: transform if needed
  let rebased : Except Err (Op × List StoredOp) :=
    if ov ≠ snapshot.v then
      if ov > snapshot.v then .error .ERR_OT_OP_BADLY_FORMED
      else
        let hs := getOpsD dbFetch c docId ov (some snapshot.v)
        if hs.length ≠ snapshot.v - ov then .error .ERR_SUBMIT_TRANSFORM_OPS_NOT_FOUND
        else rebaseLoop snapshot.type opCopy hs []
    else .ok (opCopy, [])
  match rebased with
  | .error e => .err e
  | .ok (op1, transformedOps) =>
    -- Step 4: apply the op to a clone of the snapshot
    match applyK snapshot op1 with
    | .error e => .err e
    | .ok newSnapshot =>
      -- Step 5: commit (CAS)
      match commitD dbCommit c docId op1 newSnapshot with
      | some db1 => .ok { op := op1, snapshot := newSnapshot, ops := transformedOps } db1
      | none =>
        -- Step 6: conflict; `op.v = undefined` on the caller's op, retry
        .conflictRetry { callerOp with v := none }

/-- Overall outcome of `submitOp`. -/
inductive SubmitOutcome where
  | ok (result : SubmitResult) (db : Db)
  | err (e : Err)

/-- The `while (true)` loop of `submitOp`, run in the single-threaded setting
where no other turn intervenes (so every iteration observes the same store).
The fuel counts the remaining permitted attempts: `retries > maxRetries`
raises `ERR_MAX_SUBMIT_RETRIES_EXCEEDED`. -/
def submitGo (db : Db) (c docId : String) : Op → Nat → SubmitOutcome
  | _, 0 => .err .ERR_MAX_SUBMIT_RETRIES_EXCEEDED
  | o, fuel + 1 =>
    match submitAttempt db db c docId o with
    | .ok r db1 => .ok r db1
    | .err e => .err e
    | .conflictRetry o1 => submitGo db c docId o1 fuel

/-- `submitOp(db, collection, id, op, {maxRetries})` (`submit-request` lines
59-150): validate the op, then run the fetch-transform-apply-commit loop with
at most `maxRetries + 1` attempts. -/
def submitOpS (db : Db) (c docId : String) (o : Op) (maxRetries : Nat := 10) : SubmitOutcome :=
  match checkOpT o with
  | .error e => .err e
  | .ok _ => submitGo db c docId o (maxRetries + 1)

/-- The stores reachable from the empty store by successful `submitOp`
commits (the only mutation path of the server store). -/
inductive Reachable : Db → Prop where
  | empty : Reachable emptyDb
  | step {db : Db} {c docId : String} {o : Op} {mr : Nat} {r : SubmitResult} {db1 : Db} :
      Reachable db → submitOpS db c docId o mr = .ok r db1 → Reachable db1

/-- The op-log contiguity invariant: per document, the log entry at index `i`
carries `v = i` (so the versions are exactly `0, 1, …, len − 1`, gap-free and
duplicate-free), and the stored snapshot's version equals the log length
(with an absent snapshot the log is empty). -/
def WellFormedDb (db : Db) : Prop :=
  ∀ c docId : String,
    (∀ i : Nat, ∀ hi : i < (db.ops (c, docId)).length,
        ((db.ops (c, docId)).get ⟨i, hi⟩).v = some i) ∧
    (match db.snapshots (c, docId) with
     | some s => s.v = (db.ops (c, docId)).length
     | none => db.ops (c, docId) = [])

/-! ## Helper lemmas -/

/-- Every non-throwing path of the kernel `apply` increments the snapshot
version by exactly one. -/
theorem applyK_ok_version {s : Snapshot} {o : Op} {s1 : Snapshot}
    (h : applyK s o = .ok s1) : s1.v = s.v + 1 := by
  unfold applyK at h
  repeat' split at h
  all_goals first
    | exact Except.noConfusion h
    | (injection h with h2; subst h2; rfl)

/-- The kernel `transform` leaves every field of the op except `op` and `v`
unchanged, and bumps `v` by one when present. -/
theorem transformK_ok_fields {ty : Option String} {o a o1 : Op}
    (h : transformK ty o a = .ok o1) :
    o1.v = o.v.map (· + 1) ∧ o1.src = o.src ∧ o1.seq = o.seq ∧
      o1.create = o.create ∧ o1.del = o.del := by
  unfold transformK at h
  split at h
  · exact Except.noConfusion h
  · split at h
    · exact Except.noConfusion h
    · injection h with h2
      subst h2
      rename_i o2 heq
      unfold transformKBody at heq
      repeat' split at heq
      all_goals first
        | exact Except.noConfusion heq
        | (injection heq with h3; subst h3; simp)

/-! ## The claims -/

/-- C1: the TP1 convergence property
`apply(apply(s, a), transform(b, a, 'right')) = apply(apply(s, b), transform(a, b, 'left'))`
fails for the simple-text type.  At snapshot `"ab"` with `a = delete(0, 2)`
and `b = insert(1, "X")` (both valid on `"ab"`), the two sides evaluate to
`"X"` and `"b"`: the delete-vs-insert transform leaves a delete that also
swallows text inserted inside the deleted range, contradicting the TP1
contract stated in the `OTType.transform` documentation
(`src/core/types.ts:70-72`). -/
theorem C1_text_tp1_fails :
    textApply (textApply "ab" (.delete 0 2))
        (textTransform (.insert 1 "X") (.delete 0 2) .right) = "X" ∧
    textApply (textApply "ab" (.insert 1 "X"))
        (textTransform (.delete 0 2) (.insert 1 "X") .left) = "b" ∧
    ("X" : String) ≠ "b" := by
  refine ⟨by decide, by decide, by decide⟩

/-- C2: whenever the kernel `apply(snapshot, op)` returns without throwing,
the snapshot version has increased by exactly 1 — on create, delete, edit and
the structural no-op shape alike. -/
theorem C2_apply_increments_version (s : Snapshot) (o : Op) (s1 : Snapshot)
    (h : applyK s o = .ok s1) : s1.v = s.v + 1 :=
  applyK_ok_version h

/-- Witness for C2: a concrete create op applied to the empty snapshot. -/
theorem C2_apply_increments_version_witness :
    applyK (createEmptySnapshot "doc1") { create := some ⟨"counter", some (.num 5)⟩ } =
      .ok { id := "doc1", v := 1, type := some "http://sharejs.org/types/counter",
            data := some (.counter 5) } ∧
    (1 : Nat) = (createEmptySnapshot "doc1").v + 1 := by
  refine ⟨rfl, ?_⟩
  exact C2_apply_increments_version (createEmptySnapshot "doc1")
    { create := some ⟨"counter", some (.num 5)⟩ }
    { id := "doc1", v := 1, type := some "http://sharejs.org/types/counter",
      data := some (.counter 5) } rfl

/-- C3: contrary to the claim (and to the transform table in the comment at
`src/core/ot.ts:222-227`), transforming a Delete against an applied Create
does not succeed: the kernel raises `ERR_DOC_ALREADY_CREATED`
(`src/core/ot.ts:262-264`).  This theorem evaluates the code at the failing
input `op = {del: true, v: 0}`, `appliedOp = {create: {type: 'counter'}, v: 0}`. -/
theorem C3_delete_vs_applied_create_errors :
    transformK (some "counter") { del := true, v := some 0 }
      { create := some ⟨"counter", none⟩, v := some 0 } =
    .error .ERR_DOC_ALREADY_CREATED := rfl

/-- C4 counterexample: an operation carrying both a valid `create` shape and
`del: true` is accepted by `checkOp` — the claim says it must be rejected as
badly formed.  The if / else-if chain validates only the first shape present
in the order create, del, op. -/
theorem C4_checkOp_accepts_create_plus_del :
    checkOpR (some { create := .obj (some "counter"), del := .trueV, op := .absent,
                     src := .nullish, seq := .nullish }) = .ok () := rfl

/-- C4 amended: `checkOp` accepts an operation only if it carries at least
one of `create`/`del`/`op` (an object carrying none is rejected as badly
formed); an object carrying more than one shape is validated against the
first present in the precedence order create, del, op — so the verdict is
independent of the later shape fields, both when `create` leads (the `del`
and `op` fields are ignored) and when `del` leads (the `op` key is ignored)
— rather than rejected. -/
theorem C4_checkOp_shape_precedence :
    (∀ r : RawOp, r.create = .nullish → r.del = .nullish → r.op = .absent →
        checkOpR (some r) = .error .ERR_OT_OP_BADLY_FORMED) ∧
    (∀ r : RawOp, checkOpR (some r) = .ok () →
        r.create ≠ .nullish ∨ r.del ≠ .nullish ∨ r.op = .present) ∧
    (∀ r : RawOp, ∀ d : RawDelVal, ∀ k : RawOpKey, r.create ≠ .nullish →
        checkOpR (some { r with del := d, op := k }) = checkOpR (some r)) ∧
    (∀ r : RawOp, ∀ k : RawOpKey, r.create = .nullish → r.del ≠ .nullish →
        checkOpR (some { r with op := k }) = checkOpR (some r)) := by
  refine ⟨?_, ?_, ?_, ?_⟩
  · intro r h1 h2 h3
    simp [checkOpR, rawShapeCheck, h1, h2, h3]
  · intro r h
    by_contra hc
    push_neg at hc
    obtain ⟨hc1, hc2, hc3⟩ := hc
    have h3 : r.op = .absent := by cases hr : r.op <;> simp_all
    simp [checkOpR, rawShapeCheck, hc1, hc2, h3] at h
  · intro r d k h1
    cases hr : r.create with
    | nullish => exact absurd hr h1
    | nonObject => simp [checkOpR, rawShapeCheck, rawSrcSeqCheck, hr]
    | obj ty => cases ty <;> simp [checkOpR, rawShapeCheck, rawSrcSeqCheck, hr]
  · intro r k h1 h2
    cases hd : r.del with
    | nullish => exact absurd hd h2
    | trueV => simp [checkOpR, rawShapeCheck, rawSrcSeqCheck, h1, hd]
    | otherNonNull => simp [checkOpR, rawShapeCheck, rawSrcSeqCheck, h1, hd]

/-- Witness for C4 amended: the no-shape rejection, the del/op-field
independence of a create-headed verdict, and the op-key independence of a
del-headed verdict, at concrete operations. -/
theorem C4_checkOp_shape_precedence_witness :
    checkOpR (some { create := .nullish, del := .nullish, op := .absent,
                     src := .nullish, seq := .nullish }) =
      .error .ERR_OT_OP_BADLY_FORMED ∧
    checkOpR (some { create := .obj (some "counter"), del := .trueV, op := .present,
                     src := .nullish, seq := .nullish }) =
      checkOpR (some { create := .obj (some "counter"), del := .nullish, op := .absent,
                       src := .nullish, seq := .nullish }) ∧
    checkOpR (some { create := .nullish, del := .trueV, op := .present,
                     src := .nullish, seq := .nullish }) =
      checkOpR (some { create := .nullish, del := .trueV, op := .absent,
                       src := .nullish, seq := .nullish }) :=
  ⟨C4_checkOp_shape_precedence.1 _ rfl rfl rfl,
   C4_checkOp_shape_precedence.2.2.1
     { create := .obj (some "counter"), del := .nullish, op := .absent,
       src := .nullish, seq := .nullish } .trueV .present (by simp),
   C4_checkOp_shape_precedence.2.2.2
     { create := .nullish, del := .trueV, op := .absent,
       src := .nullish, seq := .nullish } .present rfl (by simp)⟩

/-- C5 counterexample: `counterType.create` is not the floor function on
numeric inputs.  `(data as number) | 0` truncates toward zero, so
`create(-3.7) = -3` while `⌊-3.7⌋ = -4`. -/
theorem C5_counter_create_not_floor :
    counterCreate (some (-(37 : ℚ) / 10)) = -3 ∧ ⌊(-(37 : ℚ) / 10)⌋ = -4 ∧
    counterCreate (some (-(37 : ℚ) / 10)) ≠ ⌊(-(37 : ℚ) / 10)⌋ := by
  have hn : (-(37 : ℚ) / 10).num = -37 := by norm_num
  have hd : (-(37 : ℚ) / 10).den = 10 := by norm_num
  have h1 : counterCreate (some (-(37 : ℚ) / 10)) = -3 := by
    simp only [counterCreate, jsToInt32, jsTrunc, hn, hd]
    decide
  have h2 : ⌊(-(37 : ℚ) / 10)⌋ = -4 := by
    rw [Rat.floor_def, hn, hd]
    decide
  exact ⟨h1, h2, by rw [h1, h2]; decide⟩

/-- C5 amended: `create(x)` equals `ToInt32(x)` — truncation toward zero
followed by a 32-bit wrap — which agrees with `⌊x⌋` for `0 ≤ x < 2³¹`;
`create()` with no input equals 0. -/
theorem C5_counter_create_floor_on_nonneg :
    counterCreate none = 0 ∧
    (∀ q : ℚ, 0 ≤ q → q < 2 ^ 31 → counterCreate (some q) = ⌊q⌋) := by
  refine ⟨rfl, ?_⟩
  intro q h0 h1
  have hnum : (0 : Int) ≤ q.num := Rat.num_nonneg.mpr h0
  have htr : jsTrunc q = ⌊q⌋ := by
    rw [jsTrunc, Int.tdiv_eq_ediv hnum (by positivity), Rat.floor_def]
  have hf0 : (0 : Int) ≤ ⌊q⌋ := Int.floor_nonneg.mpr h0
  have hf1 : ⌊q⌋ < 2 ^ 31 := by
    rw [Int.floor_lt]
    push_cast
    exact h1
  simp only [counterCreate, jsToInt32, htr]
  show (⌊q⌋ + 2 ^ 31) % (2 ^ 32) - 2 ^ 31 = ⌊q⌋
  omega

/-- Witness for C5 amended: `create(7/2) = ⌊7/2⌋ = 3`. -/
theorem C5_counter_create_floor_on_nonneg_witness :
    (0 : ℚ) ≤ 7 / 2 ∧ (7 : ℚ) / 2 < 2 ^ 31 ∧
    counterCreate (some ((7 : ℚ) / 2)) = ⌊(7 : ℚ) / 2⌋ :=
  ⟨by norm_num, by norm_num,
   C5_counter_create_floor_on_nonneg.2 ((7 : ℚ) / 2) (by norm_num) (by norm_num)⟩

/-- C7: when the server rejects the in-flight operation (an op message
carrying an error while `inflightOp` is set), the replica hard-rolls-back:
`inflightOp` becomes null, `pendingOps` becomes empty, `type`/`data`/`version`
are reset to the never-fetched nonexistent state, every callback of every
dropped op is invoked with the error (inflight first, then the pending ops in
order), `subscribed` is cleared and `subscribe()` is called (sending the
resubscribe request whenever the connection can send). -/
theorem C7_rejected_inflight_hard_rollback (st : DocState) (canSend : Bool)
    (ifo : PendingOp) (h : st.inflightOp = some ifo) :
    (handleOpError canSend st).1 =
      { version := none, ty := none, data := none, subscribed := false,
        inflightOp := none, pendingOps := [] } ∧
    (handleOpError canSend st).2 =
      { erroredCallbacks := ifo.callbacks ++ (st.pendingOps.map PendingOp.callbacks).flatten,
        subscribeCalled := true, subscribeSent := canSend } := by
  simp [handleOpError, hardRollback, h]

/-- Witness for C7: a replica with one inflight op (callbacks 1, 2) and one
pending op (callback 3) on a connected connection. -/
theorem C7_rejected_inflight_hard_rollback_witness :
    (handleOpError true
        { version := some 3, ty := some .counter, data := some (.counter 5),
          subscribed := true,
          inflightOp := some { op := { op := some (some (.counterDelta 1)), v := some 3,
                                       src := some "a", seq := some 1 },
                               ty := some .counter, callbacks := [1, 2] },
          pendingOps := [{ op := { op := some (some (.counterDelta 2)) },
                           ty := some .counter, callbacks := [3] }] }).1 =
      { version := none, ty := none, data := none, subscribed := false,
        inflightOp := none, pendingOps := [] } ∧
    (handleOpError true
        { version := some 3, ty := some .counter, data := some (.counter 5),
          subscribed := true,
          inflightOp := some { op := { op := some (some (.counterDelta 1)), v := some 3,
                                       src := some "a", seq := some 1 },
                               ty := some .counter, callbacks := [1, 2] },
          pendingOps := [{ op := { op := some (some (.counterDelta 2)) },
                           ty := some .counter, callbacks := [3] }] }).2 =
      { erroredCallbacks := [1, 2] ++ ([[3]] : List (List Nat)).flatten,
        subscribeCalled := true, subscribeSent := true } :=
  C7_rejected_inflight_hard_rollback _ true _ rfl

/-- C10: the simple-text `apply` is total (a plain function in this model, as
in the source, where `String.prototype.slice` never throws on numeric
arguments) for every string snapshot and every insert or delete with
non-negative `pos` and `count`, including positions outside the string: an
insert at a position at or past the end appends the text, and a delete whose
range reaches past the end removes exactly the characters from `pos` to the
end. -/
theorem C10_textApply_out_of_range (s text : String) (pos count : Int)
    (hp : 0 ≤ pos) (hc : 0 ≤ count) :
    ((s.length : Int) ≤ pos → textApply s (.insert pos text) = s ++ text) ∧
    ((s.length : Int) ≤ pos + count →
      textApply s (.delete pos count) = (s.toList.take pos.toNat).asString) := by
  have hlen : s.toList.length = s.length := rfl
  have h1 : jsSliceIdx s.length 0 = 0 := by simp [jsSliceIdx]
  constructor
  · intro hge
    have h2 : jsSliceIdx s.length pos = s.length := by
      rw [jsSliceIdx, if_neg (by omega)]
      omega
    simp only [textApply, jsSlice, h1, h2]
    rw [List.drop_zero, Nat.sub_zero, Nat.sub_self, List.take_zero,
      ← hlen, List.take_length, String.asString_toList]
    show s ++ text ++ ([] : List Char).asString = s ++ text
    rw [show ([] : List Char).asString = "" from rfl, String.append_empty]
  · intro hge
    have h2 : jsSliceIdx s.length pos = min pos.toNat s.length := by
      rw [jsSliceIdx, if_neg (by omega)]
    have h3 : jsSliceIdx s.length (pos + count) = s.length := by
      rw [jsSliceIdx, if_neg (by omega)]
      omega
    simp only [textApply, jsSlice, h1, h2, h3]
    rw [List.drop_zero, Nat.sub_zero, Nat.sub_self, List.take_zero]
    have h4 : s.toList.take (min pos.toNat s.length) = s.toList.take pos.toNat := by
      rcases Nat.le_total pos.toNat s.length with hle | hle
      · rw [Nat.min_eq_left hle]
      · rw [Nat.min_eq_right hle, ← hlen, List.take_length,
          List.take_of_length_le (by omega)]
    rw [h4]
    show (s.toList.take pos.toNat).asString ++ ([] : List Char).asString =
      (s.toList.take pos.toNat).asString
    rw [show ([] : List Char).asString = "" from rfl, String.append_empty]

/-- The rebase loop preserves `src` and `seq` and advances the op's base
version by one per historical entry. -/
theorem rebaseLoop_ok_fields {ty : Option String} {hs : List StoredOp} {o o1 : Op}
    {acc acc1 : List StoredOp} {n : Nat} (hv : o.v = some n)
    (h : rebaseLoop ty o hs acc = .ok (o1, acc1)) :
    o1.v = some (n + hs.length) ∧ o1.src = o.src ∧ o1.seq = o.seq := by
  induction hs generalizing o acc n with
  | nil =>
    unfold rebaseLoop at h
    injection h with h2
    injection h2 with h3 h4
    subst h3
    simpa using hv
  | cons hd tl ih =>
    unfold rebaseLoop at h
    split at h
    · exact Except.noConfusion h
    · split at h
      · exact Except.noConfusion h
      · rename_i o2 heq
        obtain ⟨hv2, hsrc2, hseq2, -, -⟩ := transformK_ok_fields heq
        rw [hv] at hv2
        simp at hv2
        obtain ⟨h1, h2, h3⟩ := ih hv2 h
        refine ⟨?_, by rw [h2, hsrc2], by rw [h3, hseq2]⟩
        rw [h1]
        congr 1
        simp only [List.length_cons]
        omega

/-- If the rebase loop runs cleanly over a prefix and the transformed op then
collides on `(src, seq)` with the next historical entry, the whole loop fails
with `ERR_OP_ALREADY_SUBMITTED`. -/
theorem rebaseLoop_collision_err {ty : Option String} {pre : List StoredOp} {o o1 : Op}
    {acc acc1 : List StoredOp} {dup : StoredOp} (rest : List StoredOp)
    (h : rebaseLoop ty o pre acc = .ok (o1, acc1)) (hdup : dupCollision o1 dup = true) :
    rebaseLoop ty o (pre ++ dup :: rest) acc = .error .ERR_OP_ALREADY_SUBMITTED := by
  induction pre generalizing o acc with
  | nil =>
    simp only [rebaseLoop] at h
    injection h with h2
    injection h2 with h3 h4
    subst h3
    rw [List.nil_append]
    simp only [rebaseLoop]
    rw [if_pos hdup]
  | cons hd tl ih =>
    rw [List.cons_append]
    simp only [rebaseLoop] at h ⊢
    split at h
    · exact Except.noConfusion h
    · rename_i hcol
      split at h
      · exact Except.noConfusion h
      · rw [if_neg hcol]
        exact ih h

/-- The version of the fetched snapshot is the stored version, or 0 for a
never-created document — the same quantity the CAS in `commit` compares
against. -/
theorem getSnapshotD_v (db : Db) (c docId : String) :
    (getSnapshotD db c docId).v =
      (match db.snapshots (c, docId) with
       | some s => s.v
       | none => 0) := by
  unfold getSnapshotD createEmptySnapshot
  split <;> rfl

/-- `commit` succeeds when the op's base version equals the current stored
version, appending the stored op and replacing the snapshot. -/
theorem commitD_head_ok (db : Db) (c docId : String) (op1 : Op) (ns : Snapshot)
    (hv : op1.v = some (getSnapshotD db c docId).v) :
    commitD db c docId op1 ns =
      some { snapshots := fun k => if k = (c, docId) then some ns else db.snapshots k
             ops := fun k =>
               if k = (c, docId) then db.ops (c, docId) ++ [{ toOp := op1, c := c, d := docId }]
               else db.ops k } := by
  rw [getSnapshotD_v] at hv
  unfold commitD
  rw [hv]
  exact if_pos rfl

/-- Inversion of a successful `commit`: the op carried the current stored
version and the store was updated by appending the op and replacing the
snapshot. -/
theorem commitD_some_inv {db : Db} {c docId : String} {op1 : Op} {ns : Snapshot} {db1 : Db}
    (h : commitD db c docId op1 ns = some db1) :
    op1.v = some (getSnapshotD db c docId).v ∧
    db1.snapshots = (fun k => if k = (c, docId) then some ns else db.snapshots k) ∧
    db1.ops = (fun k =>
      if k = (c, docId) then db.ops (c, docId) ++ [{ toOp := op1, c := c, d := docId }]
      else db.ops k) := by
  cases hs : db.snapshots (c, docId) with
  | none =>
    cases hv : op1.v with
    | none =>
      simp only [commitD, hs, hv] at h
      exact Option.noConfusion h
    | some v =>
      simp only [commitD, hs, hv] at h
      split at h
      · rename_i hveq
        injection h with h2
        subst h2
        refine ⟨?_, rfl, rfl⟩
        subst hveq
        simp [getSnapshotD_v, hs, hv]
      · exact Option.noConfusion h
  | some s =>
    cases hv : op1.v with
    | none =>
      simp only [commitD, hs, hv] at h
      exact Option.noConfusion h
    | some v =>
      simp only [commitD, hs, hv] at h
      split at h
      · rename_i hveq
        injection h with h2
        subst h2
        refine ⟨?_, rfl, rfl⟩
        subst hveq
        simp [getSnapshotD_v, hs, hv]
      · exact Option.noConfusion h

/-- Inversion of one `submitOp` iteration.  On success, the committed op's
base version is the fetched snapshot version (the rebase loop advanced it all
the way), the new snapshot is the kernel-applied one, and the store is the
commit's update.  On a CAS conflict, the caller's op is returned with its `v`
reset to `undefined`, and the commit indeed failed for an op at the fetched
head version. -/
theorem submitAttempt_inv (dbF dbC : Db) (c docId : String) (o : Op) :
    (∀ r db1, submitAttempt dbF dbC c docId o = .ok r db1 →
        r.op.v = some (getSnapshotD dbF c docId).v ∧
        applyK (getSnapshotD dbF c docId) r.op = .ok r.snapshot ∧
        commitD dbC c docId r.op r.snapshot = some db1) ∧
    (∀ o1, submitAttempt dbF dbC c docId o = .conflictRetry o1 →
        o1 = { o with v := none } ∧
        ∃ op2 ns, op2.v = some (getSnapshotD dbF c docId).v ∧
          commitD dbC c docId op2 ns = none) := by
  constructor
  · intro r db1 h
    simp only [submitAttempt] at h
    split at h
    · exact SubmitAttemptResult.noConfusion h
    · rename_i op1 tops hreb
      split at h
      · exact SubmitAttemptResult.noConfusion h
      · rename_i ns happ
        split at h
        · rename_i db2 hcom
          injection h with h2 h3
          subst h2
          subst h3
          refine ⟨?_, happ, hcom⟩
          split at hreb
          · rename_i hne
            split at hreb
            · exact Except.noConfusion hreb
            · rename_i hngt
              split at hreb
              · exact Except.noConfusion hreb
              · rename_i hlen
                have hfields := rebaseLoop_ok_fields rfl hreb
                rw [hfields.1]
                congr 1
                omega
          · rename_i hne
            injection hreb with h4
            injection h4 with h5 h6
            subst h5
            simp only []
            congr 1
            omega
        · exact SubmitAttemptResult.noConfusion h
  · intro o1 h
    simp only [submitAttempt] at h
    split at h
    · exact SubmitAttemptResult.noConfusion h
    · rename_i op1 tops hreb
      split at h
      · exact SubmitAttemptResult.noConfusion h
      · rename_i ns happ
        split at h
        · exact SubmitAttemptResult.noConfusion h
        · rename_i hcom
          injection h with h2
          subst h2
          refine ⟨rfl, op1, ns, ?_, hcom⟩
          split at hreb
          · rename_i hne
            split at hreb
            · exact Except.noConfusion hreb
            · rename_i hngt
              split at hreb
              · exact Except.noConfusion hreb
              · rename_i hlen
                have hfields := rebaseLoop_ok_fields rfl hreb
                rw [hfields.1]
                congr 1
                omega
          · rename_i hne
            injection hreb with h4
            injection h4 with h5 h6
            subst h5
            simp only []
            congr 1
            omega

/-- In the single-threaded setting — the same store observed at fetch and at
commit — the CAS never fails: the rebase loop leaves the op exactly at the
head version the commit compares against. -/
theorem submitAttempt_seq_no_conflict (db : Db) (c docId : String) (o o1 : Op) :
    submitAttempt db db c docId o ≠ .conflictRetry o1 := by
  intro h
  obtain ⟨-, op2, ns, hv, hcom⟩ := (submitAttempt_inv db db c docId o).2 o1 h
  rw [commitD_head_ok db c docId op2 ns hv] at hcom
  exact Option.noConfusion hcom

/-- A successful sequential `submitOp` loop succeeds on its very first
iteration. -/
theorem submitGo_ok {db : Db} {c docId : String} {o : Op} {fuel : Nat}
    {r : SubmitResult} {db1 : Db} (h : submitGo db c docId o fuel = .ok r db1) :
    submitAttempt db db c docId o = .ok r db1 := by
  cases fuel with
  | zero => exact SubmitOutcome.noConfusion h
  | succ f =>
    simp only [submitGo] at h
    split at h
    · rename_i r2 db2 heq
      injection h with h2 h3
      subst h2
      subst h3
      exact heq
    · exact SubmitOutcome.noConfusion h
    · rename_i o2 heq
      exact absurd heq (submitAttempt_seq_no_conflict db c docId o o2)

/-- A successful `submitOp` is a validated op plus a successful first
iteration. -/
theorem submitOpS_ok_attempt {db : Db} {c docId : String} {o : Op} {mr : Nat}
    {r : SubmitResult} {db1 : Db} (h : submitOpS db c docId o mr = .ok r db1) :
    submitAttempt db db c docId o = .ok r db1 := by
  unfold submitOpS at h
  split at h
  · exact SubmitOutcome.noConfusion h
  · exact submitGo_ok h

/-- Appending an entry carrying `v = length` preserves the index-is-version
property of an op log. -/
theorem oplog_append_contiguous (log : List StoredOp) (st : StoredOp)
    (hWF : ∀ i : Nat, ∀ hi : i < log.length, (log.get ⟨i, hi⟩).v = some i)
    (hst : st.v = some log.length) :
    ∀ i : Nat, ∀ hi : i < (log ++ [st]).length, ((log ++ [st]).get ⟨i, hi⟩).v = some i := by
  intro i hi
  rw [List.get_eq_getElem]
  rcases Nat.lt_or_ge i log.length with hlt | hge
  · rw [List.getElem_append_left hlt]
    exact hWF i hlt
  · have hlen : i = log.length := by
      simp only [List.length_append, List.length_cons, List.length_nil] at hi
      omega
    subst hlen
    rw [List.getElem_append_right hge]
    simpa using hst

/-- Transport of the index-is-version property along an equality of logs. -/
theorem oplog_wf_congr {l l2 : List StoredOp} (h : l = l2)
    (hwf : ∀ i : Nat, ∀ hi : i < l.length, (l.get ⟨i, hi⟩).v = some i) :
    ∀ i : Nat, ∀ hi : i < l2.length, (l2.get ⟨i, hi⟩).v = some i := by
  subst h
  exact hwf

/-- C9: after any sequence of operations committed through `submitOp`
starting from the empty store, every document's op log is contiguous — the
entry at index `i` carries `v = i`, so the versions are exactly
`[0, 1, …, snapshot.v − 1]`, gap-free and duplicate-free — and the stored
snapshot version equals the log length. -/
theorem C9_oplog_contiguous (db : Db) (h : Reachable db) : WellFormedDb db := by
  induction h with
  | empty =>
    intro c docId
    exact ⟨fun i hi => absurd hi (by simp [emptyDb]), rfl⟩
  | @step db0 c docId o mr r db1 hre hok ih =>
    have hatt := submitOpS_ok_attempt hok
    obtain ⟨hv, happ, hcom⟩ := (submitAttempt_inv db0 db0 c docId o).1 r db1 hatt
    obtain ⟨hv2, hsnap, hops⟩ := commitD_some_inv hcom
    have hkey := ih c docId
    have hlen0 : (getSnapshotD db0 c docId).v = (db0.ops (c, docId)).length := by
      rw [getSnapshotD_v]
      rcases hx : db0.snapshots (c, docId) with _ | s
      · have h2 := hkey.2
        rw [hx] at h2
        simp only [] at h2
        simp [h2]
      · have h2 := hkey.2
        rw [hx] at h2
        simpa using h2
    intro c2 d2
    by_cases hk : (c2, d2) = (c, docId)
    · have hlog : db1.ops (c2, d2) =
          db0.ops (c, docId) ++ [{ toOp := r.op, c := c, d := docId }] := by
        rw [hops, hk]
        simp
      have hsnap2 : db1.snapshots (c2, d2) = some r.snapshot := by
        rw [hsnap, hk]
        simp
      constructor
      · refine oplog_wf_congr hlog.symm (oplog_append_contiguous _ _ hkey.1 ?_)
        show r.op.v = _
        rw [hv, hlen0]
      · rw [hsnap2]
        show r.snapshot.v = (db1.ops (c2, d2)).length
        rw [applyK_ok_version happ, hlen0, hlog]
        simp
    · have hlog : db1.ops (c2, d2) = db0.ops (c2, d2) := by
        rw [hops]
        simp [hk]
      have hsnap2 : db1.snapshots (c2, d2) = db0.snapshots (c2, d2) := by
        rw [hsnap]
        simp [hk]
      have hkey2 := ih c2 d2
      refine ⟨oplog_wf_congr hlog.symm hkey2.1, ?_⟩
      rw [hsnap2, hlog]
      exact hkey2.2

/-- A create op with identity `(src "a", seq 1)` submitted against version
0 — used to exercise the commit loop on concrete stores. -/
def demoOp : Op :=
  { create := some ⟨"counter", none⟩, v := some 0, src := some "a", seq := some 1 }

/-- The result record of committing `demoOp` on the empty store. -/
def demoResult : SubmitResult :=
  { op := demoOp
    snapshot := { id := "d", v := 1, type := some "http://sharejs.org/types/counter",
                  data := some (.counter 0) }
    ops := [] }

/-- The store after committing `demoOp` on the empty store. -/
def demoDb : Db :=
  match submitOpS emptyDb "c" "d" demoOp 10 with
  | .ok _ db1 => db1
  | .err _ => emptyDb

/-- Witness for C9: the store reached by one concrete committed create is
well-formed. -/
theorem C9_oplog_contiguous_witness : WellFormedDb demoDb :=
  C9_oplog_contiguous demoDb
    (Reachable.step Reachable.empty
      (show submitOpS emptyDb "c" "d" demoOp 10 = .ok demoResult demoDb from rfl))

/-- A store whose document `("c", "d")` is already at version 1 — the commit
target when another turn has committed between fetch and commit. -/
def retryDb : Db :=
  { snapshots := fun k =>
      if k = ("c", "d") then
        some { id := "d", v := 1, type := some "http://sharejs.org/types/counter",
               data := some (.counter 0) }
      else none
    ops := fun k =>
      if k = ("c", "d") then [{ toOp := demoOp, c := "c", d := "d" }] else [] }

/-- C8 counterexample: when the CAS fails (the store moved to version 1
between the fetch and the commit of an op based on version 0), the retry path
mutates the caller's op — `op.v` is reset to `undefined` (`submit-request`
line 148) — so the caller's op object is NOT left unmodified and the retry
does not start from the operation exactly as submitted. -/
theorem C8_retry_mutates_caller_op :
    submitAttempt emptyDb retryDb "c" "d" demoOp = .conflictRetry { demoOp with v := none } ∧
    ({ demoOp with v := none } : Op) ≠ demoOp := by
  exact ⟨rfl, by decide⟩

/-- C8 amended: `submitOp` deep-copies the input op at the start of every
attempt, so the transform/apply of an attempt never modify the caller's op,
and in the single-threaded setting the CAS never fails, so the caller's op is
left unmodified whenever no concurrent commit intervenes; on a CAS conflict,
however, the retry path resets the caller's `op.v` to `undefined`, so each
retry starts from the original operation with its version cleared (to be
re-accepted at the then-current head), not from the op exactly as
submitted. -/
theorem C8_submit_caller_op :
    (∀ (db : Db) (c docId : String) (o o1 : Op),
        submitAttempt db db c docId o ≠ .conflictRetry o1) ∧
    (∀ (dbF dbC : Db) (c docId : String) (o o1 : Op),
        submitAttempt dbF dbC c docId o = .conflictRetry o1 → o1 = { o with v := none }) :=
  ⟨submitAttempt_seq_no_conflict,
   fun dbF dbC c docId o o1 h => ((submitAttempt_inv dbF dbC c docId o).2 o1 h).1⟩

/-- Witness for C8 amended, at the concrete conflicting stores of the
counterexample. -/
theorem C8_submit_caller_op_witness :
    submitAttempt emptyDb emptyDb "c" "d" demoOp ≠ .conflictRetry { demoOp with v := none } ∧
    ({ demoOp with v := none } : Op) = { demoOp with v := none } :=
  ⟨C8_submit_caller_op.1 emptyDb "c" "d" demoOp { demoOp with v := none },
   C8_submit_caller_op.2 emptyDb retryDb "c" "d" demoOp { demoOp with v := none } rfl⟩

/-- A store for the C6 counterexample: document `("c", "d")` was deleted at
version 0 by client `"b"` and re-created at version 1 by `"a"` with seq 5. -/
def dupMaskDb : Db :=
  { snapshots := fun k =>
      if k = ("c", "d") then
        some { id := "d", v := 2, type := some "http://sharejs.org/types/counter",
               data := some (.counter 0) }
      else none
    ops := fun k =>
      if k = ("c", "d") then
        [{ toOp := { del := true, v := some 0, src := some "b", seq := some 1 },
           c := "c", d := "d" },
         { toOp := { create := some ⟨"counter", none⟩, v := some 1, src := some "a",
                     seq := some 5 },
           c := "c", d := "d" }]
      else [] }

/-- An edit based on version 0 re-using identity `(src "a", seq 5)`, which
collides with the log entry at version 1 of `dupMaskDb`. -/
def dupMaskOp : Op :=
  { op := some (some (.counterDelta 1)), v := some 0, src := some "a", seq := some 5 }

/-- C6 counterexample: the historical window `[0, 2)` of `dupMaskDb` contains
an entry with the same `(src, seq)` as the submitted op, yet `submitOp` fails
with `ERR_DOC_WAS_DELETED`, not `OpAlreadySubmitted` — the transform against
the earlier delete entry throws before the duplicate check reaches the
colliding entry. -/
theorem C6_duplicate_masked_by_transform_error :
    ((getOpsD dupMaskDb "c" "d" 0 (some 2)).any fun h => dupCollision dupMaskOp h) = true ∧
    submitOpS dupMaskDb "c" "d" dupMaskOp 10 = .err .ERR_DOC_WAS_DELETED := by
  exact ⟨rfl, rfl⟩

/-- C6 amended: during the server-side rebase, if the submitted op carries
`(src, seq)`, the historical window `[op.v, snapshot.v)` decomposes as
`pre ++ dup :: rest` where no entry of `pre` collides and the loop transforms
cleanly over `pre`, and `dup` carries the same `(src, seq)`, then `submitOp`
fails with `OpAlreadySubmitted` and nothing is committed for that submission
(an error-free path to the colliding entry is required: an earlier entry
whose transform throws produces that error instead). -/
theorem C6_already_submitted (db : Db) (c docId : String) (o : Op) (mr : Nat)
    (ov : Nat) (pre rest : List StoredOp) (dup : StoredOp) (o1 : Op) (acc : List StoredOp)
    (hchk : checkOpT o = .ok ())
    (hv : o.v = some ov)
    (hlt : ov < (getSnapshotD db c docId).v)
    (hops : getOpsD db c docId ov (some (getSnapshotD db c docId).v) = pre ++ dup :: rest)
    (hlen : (pre ++ dup :: rest).length = (getSnapshotD db c docId).v - ov)
    (hpre : rebaseLoop (getSnapshotD db c docId).type o pre [] = .ok (o1, acc))
    (hdup : dupCollision o dup = true) :
    submitOpS db c docId o mr = .err .ERR_OP_ALREADY_SUBMITTED := by
  have hoeq : ({ o with v := some ov } : Op) = o := by
    cases o
    cases hv
    rfl
  have hcol1 : dupCollision o1 dup = true := by
    obtain ⟨-, hsrc, hseq⟩ := rebaseLoop_ok_fields hv hpre
    unfold dupCollision at hdup ⊢
    rw [hsrc, hseq]
    exact hdup
  have hloop : rebaseLoop (getSnapshotD db c docId).type o (pre ++ dup :: rest) [] =
      .error .ERR_OP_ALREADY_SUBMITTED :=
    rebaseLoop_collision_err rest hpre hcol1
  have hatt : submitAttempt db db c docId o = .err .ERR_OP_ALREADY_SUBMITTED := by
    simp only [submitAttempt, hv]
    rw [if_pos (Nat.ne_of_lt hlt)]
    rw [if_neg (by omega : ¬ ov > (getSnapshotD db c docId).v)]
    rw [hops]
    rw [if_neg (fun hne => hne hlen)]
    rw [hoeq, hloop]
  unfold submitOpS
  rw [hchk]
  simp only [submitGo, hatt]

/-- A one-entry store for the C6 witness: the create with identity
`(src "a", seq 1)` is already committed at version 0. -/
def dupDb : Db :=
  { snapshots := fun k =>
      if k = ("c", "d") then
        some { id := "d", v := 1, type := some "http://sharejs.org/types/counter",
               data := some (.counter 0) }
      else none
    ops := fun k =>
      if k = ("c", "d") then [{ toOp := demoOp, c := "c", d := "d" }] else [] }

/-- Witness for C6 amended: resubmitting `demoOp` against `dupDb` hits its
own log entry first and is rejected as already submitted. -/
theorem C6_already_submitted_witness :
    checkOpT demoOp = .ok () ∧
    submitOpS dupDb "c" "d" demoOp 10 = .err .ERR_OP_ALREADY_SUBMITTED :=
  ⟨rfl,
   C6_already_submitted dupDb "c" "d" demoOp 10 0 [] []
     { toOp := demoOp, c := "c", d := "d" } demoOp []
     rfl rfl (by decide) rfl (by decide) rfl rfl⟩

/-- Witness for C10: appending via an insert past the end of `"abc"`, and a
delete whose range `[2, 11)` overhangs `"abc"`. -/
theorem C10_textApply_out_of_range_witness :
    (0 : Int) ≤ 5 ∧ (("abc".length : Int) ≤ 5) ∧
    textApply "abc" (.insert 5 "X") = "abc" ++ "X" ∧
    textApply "abc" (.delete 2 9) = ("abc".toList.take (2 : Int).toNat).asString :=
  ⟨by decide, by decide,
   (C10_textApply_out_of_range "abc" "X" 5 0 (by decide) (by decide)).1 (by decide),
   (C10_textApply_out_of_range "abc" "X" 2 9 (by decide) (by decide)).2 (by decide)⟩

end ShareDBTut
